import Mathlib

/-!
Shallow embedding of market_maker_keeper/price.py.

Prices are modelled as rationals (the source uses the arbitrary-precision
fixed-point Wad type from the external pymaker library); wall-clock instants
and file modification times, which Python represents as floats, are modelled
as rationals as well.  Python strings are modelled as lists of characters.
Each method of the source that mutates feed state is embedded as a function
from the old state (plus the inputs the external world supplies: the current
time, the fetch outcome, the inbound message, the state of the file system)
to the new state, the returned value, and the list of observable side
effects the call performs.  Log calls are effects: the two staleness
transition log lines are tracked precisely, every other log line is lumped
into one generic log effect.  Disk and network accesses are effects too.
-/

/-- Observable side effects of a feed operation: the two staleness
transition log lines (tracked exactly), any other log line, a disk access
and a network access. -/
inductive Eff where
  | logBecameAvailable
  | logHasExpired
  | logOther
  | diskAccess
  | netAccess
  deriving DecidableEq

/-- Python strings, modelled as lists of characters. -/
abbrev PyStr := List Char

/-- Model of the Python str.lower method (ASCII case folding). -/
def pyLower (s : PyStr) : PyStr := s.map Char.toLower

/-- Model of the Python str.startswith method: does the first argument
start with the second, that is, do its first characters equal the
pattern. -/
def pyStartsWith (s p : PyStr) : Bool := decide (s.take p.length = p)

/-- Model of the Python slice s[n:]. -/
def pyDrop (n : ℕ) (s : PyStr) : PyStr := s.drop n

/-- Number of occurrences of one effect in an effect trace. -/
def countEff (e : Eff) : List Eff → ℕ
  | [] => 0
  | x :: xs => (if x = e then 1 else 0) + countEff e xs

/-- Is the effect a disk or network access. -/
def isExternalAccess : Eff → Bool
  | .diskAccess => true
  | .netAccess => true
  | _ => false

/-- The trace contains no disk and no network access. -/
def noExternalAccess (l : List Eff) : Bool := l.all (fun e => !isExternalAccess e)

/-- The trace contains a disk access. -/
def hasDiskAccess : List Eff → Bool
  | [] => false
  | Eff.diskAccess :: _ => true
  | _ :: xs => hasDiskAccess xs

/-- The trace contains a network access. -/
def hasNetAccess : List Eff → Bool
  | [] => false
  | Eff.netAccess :: _ => true
  | _ :: xs => hasNetAccess xs

/-- State of FixedPriceFeed (price.py lines 39-49): just the fixed price. -/
structure FixedState where
  fixed_price : ℚ
  deriving DecidableEq

/-- FixedPriceFeed.get_price (price.py line 48): returns the fixed price,
performing no external access. -/
def FixedPriceFeed.get_price (st : FixedState) : Option ℚ × List Eff :=
  (some st.fixed_price, [])

/-- TubPriceFeed.get_price (price.py line 58): synchronously reads the
on-chain DSValue oracle.  The oracle read is an external collaborator; its
outcome (a value, or a raised error) is supplied as an argument.  A raised
error propagates to the caller, hence the Except result. -/
def TubPriceFeed.get_price (oracleRead : Except Unit ℚ) : Except Unit (Option ℚ) × List Eff :=
  match oracleRead with
  | Except.error e => (Except.error e, [Eff.netAccess])
  | Except.ok v => (Except.ok (some v), [Eff.netAccess])

/-- ApplyTargetPrice.get_price (price.py lines 70-75).  The result of the
wrapped feed is supplied as baseResult; the synchronous on-chain read
vox.par, an external collaborator, is supplied as voxPar (a value, or a
raised error).  The source first reads the base feed and returns None if it
is None; only then does it call vox.par, so the network access happens only
in the second branch.  An error raised by vox.par is not caught and
propagates to the caller; a zero scale raises a division error in the Wad
division, which propagates as well. -/
def ApplyTargetPrice.get_price (baseResult : Option ℚ) (voxPar : Except Unit ℚ) :
    Except Unit (Option ℚ) × List Eff :=
  match baseResult with
  | none => (Except.ok none, [])
  | some p =>
    match voxPar with
    | Except.error e => (Except.error e, [Eff.netAccess])
    | Except.ok s =>
      if s = 0 then (Except.error (), [Eff.netAccess])
      else (Except.ok (some (p / s)), [Eff.netAccess])

/-- State of the file system at the path a FilePriceFeed watches: the file
is absent, or present with a modification time and either a parseable price
(some value) or unreadable or malformed contents (none). -/
inductive FsFile where
  | absent
  | present (contents : Option ℚ) (mtime : ℚ)
  deriving DecidableEq

/-- State of FilePriceFeed (price.py lines 81-89). -/
structure FileFeedState where
  filename : PyStr
  expiry : ℤ
  price : Option ℚ
  timestamp : ℚ
  expired : Bool
  deriving DecidableEq

/-- FilePriceFeed construction (price.py lines 81-89): no price, zero
timestamp, expired flag set. -/
def FilePriceFeed.init (filename : PyStr) (expiry : ℤ) : FileFeedState :=
  { filename := filename, expiry := expiry, price := none, timestamp := 0, expired := true }

/-- FilePriceFeed internal read_price (price.py lines 91-108).  The isfile
check is a disk access.  If the file is absent, price and timestamp are
reset.  If opening, JSON decoding or field extraction fails, the exception
is caught, a debug line is logged, and the state is left unchanged.  On
success a debug line is logged, an info line is logged when the price
changed, and price and timestamp are set, the timestamp from the file
modification time. -/
def FilePriceFeed.read_price (st : FileFeedState) (fs : FsFile) : FileFeedState × List Eff :=
  match fs with
  | .absent => ({ st with price := none, timestamp := 0 }, [Eff.diskAccess])
  | .present none _ => (st, [Eff.diskAccess, Eff.logOther])
  | .present (some v) m =>
    ({ st with price := some v, timestamp := m },
      [Eff.diskAccess, Eff.logOther] ++
        (if st.price = none ∨ st.price ≠ some v then [Eff.logOther] else []))

/-- FilePriceFeed.get_price (price.py lines 110-124): reads the file inline,
then applies the expiry check to the post-read state, logging and flipping
the expired flag exactly on transitions. -/
def FilePriceFeed.get_price (st : FileFeedState) (fs : FsFile) (now : ℚ) :
    FileFeedState × Option ℚ × List Eff :=
  let r := FilePriceFeed.read_price st fs
  let st1 := r.1
  if now - st1.timestamp > (st1.expiry : ℚ) then
    if st1.expired = false then
      ({ st1 with expired := true }, none, r.2 ++ [Eff.logHasExpired])
    else
      (st1, none, r.2)
  else
    if st1.expired = true then
      ({ st1 with expired := false }, st1.price, r.2 ++ [Eff.logBecameAvailable])
    else
      (st1, st1.price, r.2)

/-- State of SetzerPriceFeed (price.py lines 130-140). -/
structure SetzerState where
  source : PyStr
  expiry : ℤ
  price : Option ℚ
  retries : ℕ
  timestamp : ℚ
  expired : Bool
  deriving DecidableEq

/-- SetzerPriceFeed construction (price.py lines 130-140): no price, zero
retries, zero timestamp, expired flag set. -/
def SetzerPriceFeed.init (source : PyStr) (expiry : ℤ) : SetzerState :=
  { source := source, expiry := expiry, price := none, retries := 0, timestamp := 0,
    expired := true }

/-- SetzerPriceFeed internal fetch_price, run by the background thread
(price.py lines 142-157).  The outcome of the external setzer subprocess is
supplied as an argument: some price on success, none when the subprocess
raised.  On success: price, retries and timestamp are set, a debug line is
logged, and when the expired flag was set it is cleared with the became
available info line.  On failure the retry counter is bumped and two warning
lines are logged once it exceeds 10. -/
def SetzerPriceFeed.fetch_price (st : SetzerState) (outcome : Option ℚ) (now : ℚ) :
    SetzerState × List Eff :=
  match outcome with
  | some p =>
    let st1 := { st with price := some p, retries := 0, timestamp := now }
    if st1.expired = true then
      ({ st1 with expired := false }, [Eff.logOther, Eff.logBecameAvailable])
    else
      (st1, [Eff.logOther])
  | none =>
    let st1 := { st with retries := st.retries + 1 }
    if st1.retries > 10 then (st1, [Eff.logOther, Eff.logOther]) else (st1, [])

/-- SetzerPriceFeed.get_price (price.py lines 164-172): stale when
now minus timestamp exceeds expiry, in which case it returns none, logging
the has expired warning when the expired flag was clear; otherwise it
returns the stored price without touching the flag. -/
def SetzerPriceFeed.get_price (st : SetzerState) (now : ℚ) :
    SetzerState × Option ℚ × List Eff :=
  if now - st.timestamp > (st.expiry : ℚ) then
    if st.expired = false then
      ({ st with expired := true }, none, [Eff.logHasExpired])
    else
      (st, none, [])
  else
    (st, st.price, [])

/-- One interaction with a SetzerPriceFeed instance: a background fetch or
a caller get_price. -/
inductive SetzerOp where
  | fetch (outcome : Option ℚ) (now : ℚ)
  | getPrice (now : ℚ)

/-- State transition and effect trace of one SetzerOp. -/
def SetzerPriceFeed.step (st : SetzerState) : SetzerOp → SetzerState × List Eff
  | .fetch o now => SetzerPriceFeed.fetch_price st o now
  | .getPrice now =>
    ((SetzerPriceFeed.get_price st now).1, (SetzerPriceFeed.get_price st now).2.2)

/-- Run a sequence of interactions against a SetzerPriceFeed instance,
collecting the effect traces in order. -/
def SetzerPriceFeed.run (st : SetzerState) : List SetzerOp → SetzerState × List Eff
  | [] => (st, [])
  | op :: ops =>
    let r1 := SetzerPriceFeed.step st op
    let r2 := SetzerPriceFeed.run r1.1 ops
    (r2.1, r1.2 ++ r2.2)

/-- Indicator that the expired flag is clear (the feed currently reports
itself fresh): 1 when fresh, 0 when expired. -/
def freshScore (expired : Bool) : ℕ := if expired then 0 else 1

/-- State of GdaxPriceFeed (price.py lines 178-189).  The connected field
models whether the websocket connection managed by the background thread is
open; the message handler never closes it. -/
structure GdaxState where
  ws_url : PyStr
  product_id : PyStr
  expiry : ℤ
  last_price : Option ℚ
  last_timestamp : ℚ
  expired : Bool
  connected : Bool
  deriving DecidableEq

/-- GdaxPriceFeed construction (price.py lines 178-189). -/
def GdaxPriceFeed.init (ws_url product_id : PyStr) (expiry : ℤ) : GdaxState :=
  { ws_url := ws_url, product_id := product_id, expiry := expiry, last_price := none,
    last_timestamp := 0, expired := true, connected := false }

/-- One inbound websocket frame, after JSON decoding, as dispatched on the
type discriminator (price.py lines 213-225): a subscriptions frame, a ticker
frame (whose price field parses to some value, or fails to parse: none), a
heartbeat frame, a frame with an unrecognized type, or a frame that is not
valid JSON or has no type field at all. -/
inductive GdaxMessage where
  | subscriptions
  | ticker (price : Option ℚ)
  | heartbeat
  | unknown
  | invalid
  deriving DecidableEq

/-- GdaxPriceFeed internal process_ticker (price.py lines 239-247): stores
the price and the current time, logs a debug line, and clears the expired
flag with the became available info line when it was set. -/
def GdaxPriceFeed.process_ticker (st : GdaxState) (p : ℚ) (now : ℚ) : GdaxState × List Eff :=
  let st1 := { st with last_price := some p, last_timestamp := now }
  if st1.expired = true then
    ({ st1 with expired := false }, [Eff.logOther, Eff.logBecameAvailable])
  else
    (st1, [Eff.logOther])

/-- GdaxPriceFeed internal process_heartbeat (price.py lines 249-250):
refreshes the timestamp only. -/
def GdaxPriceFeed.process_heartbeat (st : GdaxState) (now : ℚ) : GdaxState :=
  { st with last_timestamp := now }

/-- GdaxPriceFeed internal on_message (price.py lines 213-225): dispatch on
the type discriminator.  Subscriptions frames are ignored silently; ticker
frames with a parseable price update price and timestamp; a ticker frame
whose price cannot be parsed raises inside process_ticker before any field
is assigned, the exception is caught and a warning logged; heartbeat frames
refresh the timestamp only; unrecognized types and invalid frames are
logged and ignored.  The connection is never closed by the handler. -/
def GdaxPriceFeed.on_message (st : GdaxState) (msg : GdaxMessage) (now : ℚ) :
    GdaxState × List Eff :=
  match msg with
  | .subscriptions => (st, [])
  | .ticker (some p) => GdaxPriceFeed.process_ticker st p now
  | .ticker none => (st, [Eff.logOther])
  | .heartbeat => (GdaxPriceFeed.process_heartbeat st now, [])
  | .unknown => (st, [Eff.logOther])
  | .invalid => (st, [Eff.logOther])

/-- GdaxPriceFeed.get_price (price.py lines 230-237): same expiry logic as
the setzer feed. -/
def GdaxPriceFeed.get_price (st : GdaxState) (now : ℚ) :
    GdaxState × Option ℚ × List Eff :=
  if now - st.last_timestamp > (st.expiry : ℚ) then
    if st.expired = false then
      ({ st with expired := true }, none, [Eff.logHasExpired])
    else
      (st, none, [])
  else
    (st, st.last_price, [])

/-- State of BiboxPriceFeed (price.py lines 256-267).  The Bibox API client
object is an external collaborator and is not part of the state. -/
structure BiboxState where
  pair : PyStr
  expiry : ℤ
  last_price : Option ℚ
  last_timestamp : ℚ
  expired : Bool
  deriving DecidableEq

/-- BiboxPriceFeed construction (price.py lines 256-267). -/
def BiboxPriceFeed.init (pair : PyStr) (expiry : ℤ) : BiboxState :=
  { pair := pair, expiry := expiry, last_price := none, last_timestamp := 0, expired := true }

/-- One iteration of the BiboxPriceFeed background loop body (price.py
lines 271-281).  The outcome of the external REST call is supplied as an
argument: the buy and sell quotes on success, none when the call raised.
On success the mid price is stored with the current time, a debug line is
logged, and the expired flag is cleared with the became available info line
when it was set; on failure a warning is logged and nothing changes. -/
def BiboxPriceFeed.fetch_ticker (st : BiboxState) (outcome : Option (ℚ × ℚ)) (now : ℚ) :
    BiboxState × List Eff :=
  match outcome with
  | some (buy, sell) =>
    let st1 := { st with last_price := some ((buy + sell) / 2), last_timestamp := now }
    if st1.expired = true then
      ({ st1 with expired := false }, [Eff.logOther, Eff.logBecameAvailable])
    else
      (st1, [Eff.logOther])
  | none => (st, [Eff.logOther])

/-- BiboxPriceFeed.get_price (price.py lines 285-292): same expiry logic as
the setzer feed. -/
def BiboxPriceFeed.get_price (st : BiboxState) (now : ℚ) :
    BiboxState × Option ℚ × List Eff :=
  if now - st.last_timestamp > (st.expiry : ℚ) then
    if st.expired = false then
      ({ st with expired := true }, none, [Eff.logHasExpired])
    else
      (st, none, [])
  else
    (st, st.last_price, [])

/-- The concrete feed the factory constructs, with its configuration.  The
applyTarget variant exists in the source (the ApplyTargetPrice wrapper) but
the wrapping code in the factory is commented out. -/
inductive FeedSpec where
  | gdax (ws_url product_id : PyStr) (expiry : ℤ)
  | fixed (value : ℚ)
  | file (filename : PyStr) (expiry : ℤ)
  | setzer (source : PyStr) (expiry : ℤ)
  | tub
  | applyTarget (inner : FeedSpec)
  deriving DecidableEq

/-- Is the feed the ApplyTargetPrice scaling wrapper. -/
def FeedSpec.isApplyTarget : FeedSpec → Bool
  | .applyTarget _ => true
  | _ => false

/-- PriceFeedFactory.create_price_feed (price.py lines 295-327).  The
number parsing done by Wad.from_number on the suffix of a fixed selector is
an external collaborator, supplied as the parse argument (none models a
raised parse error, which the factory does not catch).  The hasTub and
hasVox flags model whether the optional Tub and Vox references were
supplied.  The source returns the selected feed directly; the wrapping of
the result in ApplyTargetPrice when a Vox is present is commented out, so
hasVox is deliberately never consulted.  When no selector and no Tub is
given the factory raises, modelled as an error result: no feed is
constructed and no background task is started. -/
def PriceFeedFactory.create_price_feed (parse : PyStr → Option ℚ)
    (price_feed_argument : Option PyStr) (price_feed_expiry_argument : ℤ)
    (hasTub : Bool) (hasVox : Bool) : Except Unit FeedSpec :=
  match price_feed_argument with
  | some a =>
    if pyLower a = "gdax-websocket".data then
      Except.ok (FeedSpec.gdax "wss://ws-feed.gdax.com".data "ETH-USD".data
        price_feed_expiry_argument)
    else if pyStartsWith a "fixed:".data then
      match parse (pyDrop 6 a) with
      | some q => Except.ok (FeedSpec.fixed q)
      | none => Except.error ()
    else if pyStartsWith a "file:".data then
      Except.ok (FeedSpec.file (pyDrop 5 a) price_feed_expiry_argument)
    else
      Except.ok (FeedSpec.setzer a price_feed_expiry_argument)
  | none =>
    if hasTub then Except.ok FeedSpec.tub else Except.error ()

/-- Memory states the setzer fetch_price success path moves through, one
plain field assignment at a time (price.py lines 144-146): first the price,
then the retry counter, then the timestamp.  The argument is the number of
assignments the writer thread has completed. -/
def setzerFetchMem (st : SetzerState) (p : ℚ) (t : ℚ) : ℕ → SetzerState
  | 0 => st
  | 1 => { st with price := some p }
  | 2 => { st with price := some p, retries := 0 }
  | _ + 3 => { st with price := some p, retries := 0, timestamp := t }

/-- What a concurrent get_price observes while a setzer fetch publishes: it
reads the timestamp field when the writer has completed k1 assignments
(price.py line 165) and the price field later, when the writer has
completed k2 assignments (price.py line 172). -/
def setzerReaderView (st : SetzerState) (p : ℚ) (t : ℚ) (k1 k2 : ℕ) : ℚ × Option ℚ :=
  ((setzerFetchMem st p t k1).timestamp, (setzerFetchMem st p t k2).price)

/-- Memory states the gdax process_ticker moves through, one plain field
assignment at a time (price.py lines 240-241): first the price, then the
timestamp (the expired flag write that may follow touches neither field). -/
def gdaxTickerMem (st : GdaxState) (p : ℚ) (t : ℚ) : ℕ → GdaxState
  | 0 => st
  | 1 => { st with last_price := some p }
  | _ + 2 => { st with last_price := some p, last_timestamp := t }

/-- What a concurrent get_price observes while a gdax ticker publishes: the
timestamp field read at writer progress k1 (price.py line 231), the price
field read at writer progress k2 (price.py line 237). -/
def gdaxReaderView (st : GdaxState) (p : ℚ) (t : ℚ) (k1 k2 : ℕ) : ℚ × Option ℚ :=
  ((gdaxTickerMem st p t k1).last_timestamp, (gdaxTickerMem st p t k2).last_price)

/-- Memory states the bibox background loop success path moves through, one
plain field assignment at a time (price.py lines 273-274): first the mid
price, then the timestamp (the expired flag write that may follow touches
neither field). -/
def biboxTickerMem (st : BiboxState) (p : ℚ) (t : ℚ) : ℕ → BiboxState
  | 0 => st
  | 1 => { st with last_price := some p }
  | _ + 2 => { st with last_price := some p, last_timestamp := t }

/-- What a concurrent get_price observes while the bibox loop publishes:
the timestamp field read at writer progress k1 (price.py line 286), the
price field read at writer progress k2 (price.py line 292). -/
def biboxReaderView (st : BiboxState) (p : ℚ) (t : ℚ) (k1 k2 : ℕ) : ℚ × Option ℚ :=
  ((biboxTickerMem st p t k1).last_timestamp, (biboxTickerMem st p t k2).last_price)

/-- The became available and has expired log lines occur in the effect
trace of a step exactly when the expired flag flips in the matching
direction across that step, and then exactly once: became available exactly
on a set-to-clear flip, has expired exactly on a clear-to-set flip. -/
def transitionCounts (pre post : Bool) (effs : List Eff) : Prop :=
  countEff Eff.logBecameAvailable effs = (if pre = true ∧ post = false then 1 else 0) ∧
  countEff Eff.logHasExpired effs = (if pre = false ∧ post = true then 1 else 0)

/-- A concrete stand-in for the external number parser that always fails. -/
def parseNone : PyStr → Option ℚ := fun _ => none

/-- A concrete stand-in for the external number parser that always returns
the given value. -/
def parseConst (q : ℚ) : PyStr → Option ℚ := fun _ => some q

/-- Result of a call that can raise is an ordinary return of the absent
price. -/
def isAbsentResult : Except Unit (Option ℚ) → Bool
  | Except.ok none => true
  | _ => false

lemma countEff_append (e : Eff) (l1 l2 : List Eff) :
    countEff e (l1 ++ l2) = countEff e l1 + countEff e l2 := by
  induction l1 with
  | nil => simp [countEff]
  | cons x xs ih => simp [countEff, ih]; ring

/-- Claim C1: for the file-backed, subprocess-backed, websocket-backed and
exchange-REST-backed feeds, get_price returns absent whenever the call
instant minus the last observed timestamp exceeds the expiry duration, and
returns the stored last published price otherwise.  For the file-backed
feed the relevant reading is the one current after the inline file read the
call itself performs. -/
theorem claim1_get_price_absent_iff_stale :
    (∀ (st : SetzerState) (now : ℚ),
      (SetzerPriceFeed.get_price st now).2.1 =
        if now - st.timestamp > (st.expiry : ℚ) then none else st.price) ∧
    (∀ (st : GdaxState) (now : ℚ),
      (GdaxPriceFeed.get_price st now).2.1 =
        if now - st.last_timestamp > (st.expiry : ℚ) then none else st.last_price) ∧
    (∀ (st : BiboxState) (now : ℚ),
      (BiboxPriceFeed.get_price st now).2.1 =
        if now - st.last_timestamp > (st.expiry : ℚ) then none else st.last_price) ∧
    (∀ (st : FileFeedState) (fs : FsFile) (now : ℚ),
      (FilePriceFeed.get_price st fs now).2.1 =
        if now - (FilePriceFeed.read_price st fs).1.timestamp >
            (((FilePriceFeed.read_price st fs).1.expiry : ℤ) : ℚ) then none
        else (FilePriceFeed.read_price st fs).1.price) := by
  refine ⟨?_, ?_, ?_, ?_⟩
  · intro st now
    simp only [SetzerPriceFeed.get_price]
    split_ifs <;> rfl
  · intro st now
    simp only [GdaxPriceFeed.get_price]
    split_ifs <;> rfl
  · intro st now
    simp only [BiboxPriceFeed.get_price]
    split_ifs <;> rfl
  · intro st fs now
    simp only [FilePriceFeed.get_price]
    split_ifs <;> rfl

/-- Claim C2: a feed whose reading was never published (price unset and
timestamp still zero) reports absent from get_price for every expiry
duration and every call instant: when stale it returns none from the stale
branch, and when within the expiry window it returns the stored price,
which is none.  For the file-backed feed this covers the two file states
that do not publish a reading during the call (file absent, file present
but unreadable). -/
theorem claim2_never_observed_always_absent :
    (∀ (src : PyStr) (ex : ℤ) (r : ℕ) (b : Bool) (now : ℚ),
      (SetzerPriceFeed.get_price
        { source := src, expiry := ex, price := none, retries := r, timestamp := 0,
          expired := b } now).2.1 = none) ∧
    (∀ (u pid : PyStr) (ex : ℤ) (b c : Bool) (now : ℚ),
      (GdaxPriceFeed.get_price
        { ws_url := u, product_id := pid, expiry := ex, last_price := none,
          last_timestamp := 0, expired := b, connected := c } now).2.1 = none) ∧
    (∀ (pr : PyStr) (ex : ℤ) (b : Bool) (now : ℚ),
      (BiboxPriceFeed.get_price
        { pair := pr, expiry := ex, last_price := none, last_timestamp := 0,
          expired := b } now).2.1 = none) ∧
    (∀ (fn : PyStr) (ex : ℤ) (b : Bool) (now : ℚ),
      (FilePriceFeed.get_price
        { filename := fn, expiry := ex, price := none, timestamp := 0,
          expired := b } FsFile.absent now).2.1 = none) ∧
    (∀ (fn : PyStr) (ex : ℤ) (b : Bool) (m now : ℚ),
      (FilePriceFeed.get_price
        { filename := fn, expiry := ex, price := none, timestamp := 0,
          expired := b } (FsFile.present none m) now).2.1 = none) := by
  refine ⟨?_, ?_, ?_, ?_, ?_⟩
  · intro src ex r b now
    simp only [SetzerPriceFeed.get_price]
    split_ifs <;> rfl
  · intro u pid ex b c now
    simp only [GdaxPriceFeed.get_price]
    split_ifs <;> rfl
  · intro pr ex b now
    simp only [BiboxPriceFeed.get_price]
    split_ifs <;> rfl
  · intro fn ex b now
    simp only [FilePriceFeed.get_price, FilePriceFeed.read_price]
    split_ifs <;> rfl
  · intro fn ex b m now
    simp only [FilePriceFeed.get_price, FilePriceFeed.read_price]
    split_ifs <;> rfl

/-- Claim C5: the websocket message handler dispatches on the type
discriminator: a ticker frame with a parseable price updates both the
stored price and the timestamp; a heartbeat frame updates the timestamp
only, leaving the price unchanged; an unrecognized frame, a frame that is
invalid, and a ticker frame whose price does not parse are logged and leave
price and timestamp unchanged; and no message ever changes the connection
state. -/
theorem claim5_on_message_dispatch :
    (∀ (st : GdaxState) (p now : ℚ),
      (GdaxPriceFeed.on_message st (GdaxMessage.ticker (some p)) now).1 =
        { st with last_price := some p, last_timestamp := now, expired := false }) ∧
    (∀ (st : GdaxState) (now : ℚ),
      GdaxPriceFeed.on_message st GdaxMessage.heartbeat now =
        ({ st with last_timestamp := now }, [])) ∧
    (∀ (st : GdaxState) (now : ℚ),
      GdaxPriceFeed.on_message st GdaxMessage.unknown now = (st, [Eff.logOther])) ∧
    (∀ (st : GdaxState) (now : ℚ),
      GdaxPriceFeed.on_message st (GdaxMessage.ticker none) now = (st, [Eff.logOther])) ∧
    (∀ (st : GdaxState) (now : ℚ),
      GdaxPriceFeed.on_message st GdaxMessage.invalid now = (st, [Eff.logOther])) ∧
    (∀ (st : GdaxState) (msg : GdaxMessage) (now : ℚ),
      (GdaxPriceFeed.on_message st msg now).1.connected = st.connected) := by
  refine ⟨?_, ?_, ?_, ?_, ?_, ?_⟩
  · intro st p now
    cases st with
    | mk u pid ex lp lt exp conn =>
      cases exp <;>
        simp [GdaxPriceFeed.on_message, GdaxPriceFeed.process_ticker]
  · intro st now
    rfl
  · intro st now
    rfl
  · intro st now
    rfl
  · intro st now
    rfl
  · intro st msg now
    cases msg with
    | ticker p =>
      cases p with
      | none => rfl
      | some v =>
        simp only [GdaxPriceFeed.on_message, GdaxPriceFeed.process_ticker]
        split_ifs <;> rfl
    | subscriptions => rfl
    | heartbeat => rfl
    | unknown => rfl
    | invalid => rfl

lemma setzer_fetch_counts (st : SetzerState) (o : Option ℚ) (now : ℚ) :
    transitionCounts st.expired (SetzerPriceFeed.fetch_price st o now).1.expired
      (SetzerPriceFeed.fetch_price st o now).2 := by
  cases o <;> cases hb : st.expired <;>
    simp [transitionCounts, SetzerPriceFeed.fetch_price, countEff, hb] <;>
    split_ifs <;> simp_all [countEff]

lemma setzer_get_price_counts (st : SetzerState) (now : ℚ) :
    transitionCounts st.expired (SetzerPriceFeed.get_price st now).1.expired
      (SetzerPriceFeed.get_price st now).2.2 := by
  cases hb : st.expired <;>
    simp [transitionCounts, SetzerPriceFeed.get_price, countEff, hb] <;>
    split_ifs <;> simp_all [countEff]

lemma file_get_price_counts (st : FileFeedState) (fs : FsFile) (now : ℚ) :
    transitionCounts st.expired (FilePriceFeed.get_price st fs now).1.expired
      (FilePriceFeed.get_price st fs now).2.2 := by
  cases fs with
  | absent =>
    cases hb : st.expired <;>
      simp [transitionCounts, FilePriceFeed.get_price, FilePriceFeed.read_price,
        countEff, countEff_append, hb] <;>
      split_ifs <;> simp_all [countEff, countEff_append]
  | present c m =>
    cases c <;> cases hb : st.expired <;>
      simp [transitionCounts, FilePriceFeed.get_price, FilePriceFeed.read_price,
        countEff, countEff_append, hb] <;>
      split_ifs <;> simp_all [countEff, countEff_append]

lemma gdax_on_message_counts (st : GdaxState) (msg : GdaxMessage) (now : ℚ) :
    transitionCounts st.expired (GdaxPriceFeed.on_message st msg now).1.expired
      (GdaxPriceFeed.on_message st msg now).2 := by
  cases msg with
  | ticker p =>
    cases p <;> cases hb : st.expired <;>
      simp [transitionCounts, GdaxPriceFeed.on_message, GdaxPriceFeed.process_ticker,
        countEff, hb]
  | subscriptions =>
    cases hb : st.expired <;>
      simp [transitionCounts, GdaxPriceFeed.on_message, countEff, hb]
  | heartbeat =>
    cases hb : st.expired <;>
      simp [transitionCounts, GdaxPriceFeed.on_message, GdaxPriceFeed.process_heartbeat,
        countEff, hb]
  | unknown =>
    cases hb : st.expired <;>
      simp [transitionCounts, GdaxPriceFeed.on_message, countEff, hb]
  | invalid =>
    cases hb : st.expired <;>
      simp [transitionCounts, GdaxPriceFeed.on_message, countEff, hb]

lemma gdax_get_price_counts (st : GdaxState) (now : ℚ) :
    transitionCounts st.expired (GdaxPriceFeed.get_price st now).1.expired
      (GdaxPriceFeed.get_price st now).2.2 := by
  cases hb : st.expired <;>
    simp [transitionCounts, GdaxPriceFeed.get_price, countEff, hb] <;>
    split_ifs <;> simp_all [countEff]

lemma bibox_fetch_counts (st : BiboxState) (o : Option (ℚ × ℚ)) (now : ℚ) :
    transitionCounts st.expired (BiboxPriceFeed.fetch_ticker st o now).1.expired
      (BiboxPriceFeed.fetch_ticker st o now).2 := by
  cases o <;> cases hb : st.expired <;>
    simp [transitionCounts, BiboxPriceFeed.fetch_ticker, countEff, hb]

lemma bibox_get_price_counts (st : BiboxState) (now : ℚ) :
    transitionCounts st.expired (BiboxPriceFeed.get_price st now).1.expired
      (BiboxPriceFeed.get_price st now).2.2 := by
  cases hb : st.expired <;>
    simp [transitionCounts, BiboxPriceFeed.get_price, countEff, hb] <;>
    split_ifs <;> simp_all [countEff]

lemma counts_balance {pre post : Bool} {effs : List Eff} (h : transitionCounts pre post effs) :
    countEff Eff.logBecameAvailable effs + freshScore pre =
      countEff Eff.logHasExpired effs + freshScore post := by
  rcases h with ⟨h1, h2⟩
  cases pre <;> cases post <;> simp [h1, h2, freshScore]

lemma setzer_step_balance (st : SetzerState) (op : SetzerOp) :
    countEff Eff.logBecameAvailable (SetzerPriceFeed.step st op).2 + freshScore st.expired =
      countEff Eff.logHasExpired (SetzerPriceFeed.step st op).2 +
        freshScore (SetzerPriceFeed.step st op).1.expired := by
  cases op with
  | fetch o now => exact counts_balance (setzer_fetch_counts st o now)
  | getPrice now => exact counts_balance (setzer_get_price_counts st now)

lemma setzer_run_balance (ops : List SetzerOp) (st : SetzerState) :
    countEff Eff.logBecameAvailable (SetzerPriceFeed.run st ops).2 + freshScore st.expired =
      countEff Eff.logHasExpired (SetzerPriceFeed.run st ops).2 +
        freshScore (SetzerPriceFeed.run st ops).1.expired := by
  induction ops generalizing st with
  | nil => simp [SetzerPriceFeed.run, countEff]
  | cons op ops ih =>
    have h1 := setzer_step_balance st op
    have h2 := ih (SetzerPriceFeed.step st op).1
    simp only [SetzerPriceFeed.run, countEff_append]
    omega

/-- Claim C9: for each feed that maintains an expiry flag, every operation
(background fetch or message, and caller get_price) emits the became
available log line exactly when the expired flag flips from set to clear
and the has expired log line exactly when it flips from clear to set, and
then exactly once; consequently, over any sequence of fetches and get_price
calls (stated for the subprocess-backed feed), the numbers of became
available and has expired lines differ exactly by the change of the flag
between the first and last state, so neither line can be emitted twice
without the opposite flip in between. -/
theorem claim9_transition_logs_once_per_flip :
    (∀ (st : SetzerState) (o : Option ℚ) (now : ℚ),
      transitionCounts st.expired (SetzerPriceFeed.fetch_price st o now).1.expired
        (SetzerPriceFeed.fetch_price st o now).2) ∧
    (∀ (st : SetzerState) (now : ℚ),
      transitionCounts st.expired (SetzerPriceFeed.get_price st now).1.expired
        (SetzerPriceFeed.get_price st now).2.2) ∧
    (∀ (st : FileFeedState) (fs : FsFile) (now : ℚ),
      transitionCounts st.expired (FilePriceFeed.get_price st fs now).1.expired
        (FilePriceFeed.get_price st fs now).2.2) ∧
    (∀ (st : GdaxState) (msg : GdaxMessage) (now : ℚ),
      transitionCounts st.expired (GdaxPriceFeed.on_message st msg now).1.expired
        (GdaxPriceFeed.on_message st msg now).2) ∧
    (∀ (st : GdaxState) (now : ℚ),
      transitionCounts st.expired (GdaxPriceFeed.get_price st now).1.expired
        (GdaxPriceFeed.get_price st now).2.2) ∧
    (∀ (st : BiboxState) (o : Option (ℚ × ℚ)) (now : ℚ),
      transitionCounts st.expired (BiboxPriceFeed.fetch_ticker st o now).1.expired
        (BiboxPriceFeed.fetch_ticker st o now).2) ∧
    (∀ (st : BiboxState) (now : ℚ),
      transitionCounts st.expired (BiboxPriceFeed.get_price st now).1.expired
        (BiboxPriceFeed.get_price st now).2.2) ∧
    (∀ (st : SetzerState) (ops : List SetzerOp),
      countEff Eff.logBecameAvailable (SetzerPriceFeed.run st ops).2 + freshScore st.expired =
        countEff Eff.logHasExpired (SetzerPriceFeed.run st ops).2 +
          freshScore (SetzerPriceFeed.run st ops).1.expired) :=
  ⟨setzer_fetch_counts, setzer_get_price_counts, file_get_price_counts,
    gdax_on_message_counts, gdax_get_price_counts, bibox_fetch_counts,
    bibox_get_price_counts, fun st ops => setzer_run_balance ops st⟩

/-- Claim C3 counterexample: the file-backed feed performs disk I/O inside
get_price itself (it has no background task at all): already at the freshly
constructed state, a get_price call at instant 0 touches the file
system. -/
theorem claim3_counterexample :
    hasDiskAccess (FilePriceFeed.get_price (FilePriceFeed.init [] 30) FsFile.absent 0).2.2
      = true := by
  norm_num [FilePriceFeed.get_price, FilePriceFeed.read_price, FilePriceFeed.init,
    hasDiskAccess]

/-- Claim C3 amended: get_price of the subprocess-backed, websocket-backed,
exchange-REST-backed and fixed feeds performs no network or disk I/O in the
caller and has no side effect visible to the caller beyond the returned
value and staleness-transition log events: its effect trace is empty, or
exactly the one has expired transition line when the call flips the expired
flag (the fixed feed always has an empty trace); the file-backed feed
however performs disk I/O inline on every get_price call (it has no
background task), and the scaling wrapper performs an inline on-chain read
whenever the base price is present. -/
theorem claim3_amended_no_inline_io :
    (∀ (st : SetzerState) (now : ℚ),
      (SetzerPriceFeed.get_price st now).2.2 =
        if now - st.timestamp > (st.expiry : ℚ) ∧ st.expired = false
        then [Eff.logHasExpired] else []) ∧
    (∀ (st : GdaxState) (now : ℚ),
      (GdaxPriceFeed.get_price st now).2.2 =
        if now - st.last_timestamp > (st.expiry : ℚ) ∧ st.expired = false
        then [Eff.logHasExpired] else []) ∧
    (∀ (st : BiboxState) (now : ℚ),
      (BiboxPriceFeed.get_price st now).2.2 =
        if now - st.last_timestamp > (st.expiry : ℚ) ∧ st.expired = false
        then [Eff.logHasExpired] else []) ∧
    (∀ (st : FixedState), FixedPriceFeed.get_price st = (some st.fixed_price, [])) ∧
    (∀ (st : FileFeedState) (fs : FsFile) (now : ℚ),
      hasDiskAccess (FilePriceFeed.get_price st fs now).2.2 = true) ∧
    (∀ (p : ℚ) (voxPar : Except Unit ℚ),
      hasNetAccess (ApplyTargetPrice.get_price (some p) voxPar).2 = true) := by
  refine ⟨?_, ?_, ?_, fun st => rfl, ?_, ?_⟩
  · intro st now
    by_cases h1 : now - st.timestamp > (st.expiry : ℚ) <;>
      by_cases h2 : st.expired = false <;>
      simp [SetzerPriceFeed.get_price, h1, h2]
  · intro st now
    by_cases h1 : now - st.last_timestamp > (st.expiry : ℚ) <;>
      by_cases h2 : st.expired = false <;>
      simp [GdaxPriceFeed.get_price, h1, h2]
  · intro st now
    by_cases h1 : now - st.last_timestamp > (st.expiry : ℚ) <;>
      by_cases h2 : st.expired = false <;>
      simp [BiboxPriceFeed.get_price, h1, h2]
  · intro st fs now
    cases fs with
    | absent =>
      simp only [FilePriceFeed.get_price, FilePriceFeed.read_price]
      split_ifs <;> rfl
    | present c m =>
      cases c <;>
        · simp only [FilePriceFeed.get_price, FilePriceFeed.read_price]
          split_ifs <;> rfl
  · intro p voxPar
    cases voxPar with
    | error e => rfl
    | ok s =>
      simp only [ApplyTargetPrice.get_price]
      split_ifs <;> rfl

/-- Claim C4 counterexample: a failed read of an existing but unreadable or
malformed file does not leave the reading unset; it leaves the previous
reading in place.  Starting from a state holding price 5 observed at 100, a
read of a present but malformed file keeps price 5 and timestamp 100, so
the price is not none and the timestamp is not zero. -/
theorem claim4_counterexample :
    (FilePriceFeed.read_price
      { filename := [], expiry := 30, price := some 5, timestamp := 100, expired := false }
      (FsFile.present none 200)).1.price = some 5 ∧
    (FilePriceFeed.read_price
      { filename := [], expiry := 30, price := some 5, timestamp := 100, expired := false }
      (FsFile.present none 200)).1.timestamp = 100 ∧
    decide ((FilePriceFeed.read_price
      { filename := [], expiry := 30, price := some 5, timestamp := 100, expired := false }
      (FsFile.present none 200)).1.price = none) = false ∧
    decide ((FilePriceFeed.read_price
      { filename := [], expiry := 30, price := some 5, timestamp := 100, expired := false }
      (FsFile.present none 200)).1.timestamp = 0) = false := by
  refine ⟨rfl, rfl, by decide, by decide⟩

/-- Claim C4 amended: a read when the file does not exist resets the
reading to unset (no price, zero timestamp), and it stays unset until the
file reappears readable; a read that fails on an existing file (unreadable
or malformed contents) leaves the previous reading unchanged; a successful
read stores the price and sets the freshness timestamp to the file
modification time rather than the wall-clock time of the read, so an
unchanged old file is treated as expired by get_price even though the read
succeeded. -/
theorem claim4_amended_read_price :
    (∀ (st : FileFeedState),
      (FilePriceFeed.read_price st FsFile.absent).1 =
        { st with price := none, timestamp := 0 }) ∧
    (∀ (st : FileFeedState) (m : ℚ),
      (FilePriceFeed.read_price st (FsFile.present none m)).1 = st) ∧
    (∀ (st : FileFeedState) (v m : ℚ),
      (FilePriceFeed.read_price st (FsFile.present (some v) m)).1 =
        { st with price := some v, timestamp := m }) ∧
    (∀ (st : FileFeedState) (v m now : ℚ), now - m > (st.expiry : ℚ) →
      (FilePriceFeed.get_price st (FsFile.present (some v) m) now).2.1 = none) := by
  refine ⟨fun st => rfl, fun st m => rfl, fun st v m => rfl, ?_⟩
  intro st v m now h
  simp only [FilePriceFeed.get_price, FilePriceFeed.read_price]
  split_ifs with h1 h2 <;> first | rfl | exact absurd h (by simp_all)

/-- Claim C4 witness: instantiates the expiry consequence at a concrete
state, file and instant. -/
theorem claim4_witness :
    ((200 : ℚ) - 100 > (((30 : ℤ) : ℚ))) ∧
    (FilePriceFeed.get_price
      { filename := [], expiry := 30, price := some 5, timestamp := 0, expired := false }
      (FsFile.present (some 5) 100) 200).2.1 = none :=
  ⟨by norm_num,
    claim4_amended_read_price.2.2.2
      { filename := [], expiry := 30, price := some 5, timestamp := 0, expired := false }
      5 100 200 (by norm_num)⟩

/-- Claim C6 counterexample: when the base feed has a price and the scale
read raises, the scaling wrapper does not return absent; the error
propagates to the caller.  With base price 100 and a failing scale read the
call yields the raised error, not the absent result. -/
theorem claim6_counterexample :
    (ApplyTargetPrice.get_price (some 100) (Except.error ())).1 = Except.error () ∧
    isAbsentResult (ApplyTargetPrice.get_price (some 100) (Except.error ())).1 = false := by
  exact ⟨rfl, rfl⟩

/-- Claim C6 amended: the scaling wrapper returns absent exactly when the
base feed returns absent (without even invoking the scale read); when the
base price is present, a failure of the scale read propagates to the caller
as a raised error rather than as absent; otherwise the result is the base
price divided by the nonzero scale reading, for example base 100 with scale
2 yields 50. -/
theorem claim6_amended_scaling :
    (∀ (voxPar : Except Unit ℚ),
      ApplyTargetPrice.get_price none voxPar = (Except.ok none, [])) ∧
    (∀ (p : ℚ),
      (ApplyTargetPrice.get_price (some p) (Except.error ())).1 = Except.error ()) ∧
    (∀ (p s : ℚ), s ≠ 0 →
      (ApplyTargetPrice.get_price (some p) (Except.ok s)).1 = Except.ok (some (p / s))) ∧
    (ApplyTargetPrice.get_price (some 100) (Except.ok 2)).1 = Except.ok (some 50) := by
  refine ⟨fun voxPar => rfl, fun p => rfl, ?_, ?_⟩
  · intro p s hs
    simp [ApplyTargetPrice.get_price, hs]
  · norm_num [ApplyTargetPrice.get_price]

/-- Claim C6 witness: instantiates the division case at base 3 and scale
2. -/
theorem claim6_witness :
    ((2 : ℚ) ≠ 0) ∧
    (ApplyTargetPrice.get_price (some 3) (Except.ok 2)).1 = Except.ok (some (3 / 2)) :=
  ⟨by norm_num, claim6_amended_scaling.2.2.1 3 2 (by norm_num)⟩

/-- Claim C7: whatever the arguments, the factory returns the selected
concrete feed itself and never wraps it in the ApplyTargetPrice scaling
wrapper, even when a Vox scale source is supplied: the wrapping code is
commented out in the source. -/
theorem claim7_no_scaling_wrapper :
    ∀ (parse : PyStr → Option ℚ) (a : Option PyStr) (e : ℤ) (t v : Bool) (f : FeedSpec),
      PriceFeedFactory.create_price_feed parse a e t v = Except.ok f →
      f.isApplyTarget = false := by
  intro parse a e t v f h
  cases a with
  | none =>
    simp only [PriceFeedFactory.create_price_feed] at h
    split_ifs at h
    injection h with h2
    subst h2
    rfl
  | some s =>
    simp only [PriceFeedFactory.create_price_feed] at h
    split_ifs at h
    · injection h with h2
      subst h2
      rfl
    · rcases hp : parse (pyDrop 6 s) with _ | q <;> rw [hp] at h
      · exact Except.noConfusion h
      · injection h with h2
        subst h2
        rfl
    · injection h with h2
      subst h2
      rfl
    · injection h with h2
      subst h2
      rfl

/-- Claim C7 witness: with a setzer selector and a supplied Vox the factory
yields the bare subprocess-backed feed, which is not the scaling
wrapper. -/
theorem claim7_witness :
    (PriceFeedFactory.create_price_feed parseNone (some "ethusd".data) 30 false true =
      Except.ok (FeedSpec.setzer "ethusd".data 30)) ∧
    (FeedSpec.setzer "ethusd".data 30).isApplyTarget = false :=
  ⟨rfl,
    claim7_no_scaling_wrapper parseNone (some "ethusd".data) 30 false true
      (FeedSpec.setzer "ethusd".data 30) rfl⟩

/-- Claim C8: the factory maps configuration deterministically: the exact
streaming-exchange token yields the websocket feed with the hardwired url
and product; a selector of the form fixed: followed by a string the number
parser accepts yields the fixed feed carrying the parsed value, and the
fixed feed then always returns exactly that value from get_price; a
selector of the form file: followed by a path yields the file-backed feed
on that path; any other non-empty token that is not the streaming token and
carries neither recognized prefix yields the subprocess-backed setzer feed
on that token; no selector with a Tub oracle reference yields the on-chain
feed; and no selector with no Tub raises a configuration error, so no feed
is constructed and no background task is started. -/
theorem claim8_factory_mapping :
    (∀ (parse : PyStr → Option ℚ) (e : ℤ) (t v : Bool),
      PriceFeedFactory.create_price_feed parse (some "gdax-websocket".data) e t v =
        Except.ok (FeedSpec.gdax "wss://ws-feed.gdax.com".data "ETH-USD".data e)) ∧
    (∀ (parse : PyStr → Option ℚ) (s : PyStr) (q : ℚ) (e : ℤ) (t v : Bool),
      parse s = some q →
      PriceFeedFactory.create_price_feed parse (some ("fixed:".data ++ s)) e t v =
        Except.ok (FeedSpec.fixed q)) ∧
    (∀ (q : ℚ), (FixedPriceFeed.get_price { fixed_price := q }).1 = some q) ∧
    (∀ (parse : PyStr → Option ℚ) (s : PyStr) (e : ℤ) (t v : Bool),
      PriceFeedFactory.create_price_feed parse (some ("file:".data ++ s)) e t v =
        Except.ok (FeedSpec.file s e)) ∧
    (∀ (parse : PyStr → Option ℚ) (a : PyStr) (e : ℤ) (t v : Bool),
      a ≠ [] → pyLower a ≠ "gdax-websocket".data →
      pyStartsWith a "fixed:".data = false → pyStartsWith a "file:".data = false →
      PriceFeedFactory.create_price_feed parse (some a) e t v =
        Except.ok (FeedSpec.setzer a e)) ∧
    (∀ (parse : PyStr → Option ℚ) (e : ℤ) (v : Bool),
      PriceFeedFactory.create_price_feed parse none e true v = Except.ok FeedSpec.tub) ∧
    (∀ (parse : PyStr → Option ℚ) (e : ℤ) (v : Bool),
      PriceFeedFactory.create_price_feed parse none e false v = Except.error ()) := by
  refine ⟨fun parse e t v => rfl, ?_, fun q => rfl, fun parse s e t v => rfl, ?_,
    fun parse e v => rfl, fun parse e v => rfl⟩
  · intro parse s q e t v hp
    show (match parse s with
          | some q1 => Except.ok (FeedSpec.fixed q1)
          | none => Except.error ()) = Except.ok (FeedSpec.fixed q)
    rw [hp]
  · intro parse a e t v hne h1 h2 h3
    simp [PriceFeedFactory.create_price_feed, h1, h2, h3]

/-- Claim C8 witness: instantiates the fixed selector case at the selector
fixed:42.5 with a parser returning 85/2, and the fallback case at the
selector ethbtc. -/
theorem claim8_witness :
    (parseConst (85 / 2 : ℚ) "42.5".data = some (85 / 2 : ℚ)) ∧
    (PriceFeedFactory.create_price_feed (parseConst (85 / 2 : ℚ))
      (some ("fixed:".data ++ "42.5".data)) 30 false false =
        Except.ok (FeedSpec.fixed (85 / 2 : ℚ))) ∧
    (("ethbtc".data : PyStr) ≠ [] ∧ pyLower "ethbtc".data ≠ "gdax-websocket".data ∧
      pyStartsWith "ethbtc".data "fixed:".data = false ∧
      pyStartsWith "ethbtc".data "file:".data = false) ∧
    (PriceFeedFactory.create_price_feed (parseConst (85 / 2 : ℚ)) (some "ethbtc".data)
      30 false false = Except.ok (FeedSpec.setzer "ethbtc".data 30)) :=
  ⟨rfl,
    claim8_factory_mapping.2.1 (parseConst (85 / 2 : ℚ)) "42.5".data (85 / 2 : ℚ)
      30 false false rfl,
    ⟨by decide, by decide, by decide, by decide⟩,
    claim8_factory_mapping.2.2.2.2.1 (parseConst (85 / 2 : ℚ)) "ethbtc".data 30 false false
      (by decide) (by decide) (by decide) (by decide)⟩

/-- Claim C10 counterexample: publication of a reading is not atomic.  The
setzer fetch publishes with two separate plain field assignments, the price
first and the timestamp two assignments later; a get_price interleaved
after the first assignment reads the new price 2 paired with the old
timestamp 10: a pair that is neither the old reading (10 with price 1) nor
the new reading (50 with price 2). -/
theorem claim10_counterexample :
    setzerReaderView
      { source := [], expiry := 100, price := some 1, retries := 7, timestamp := 10,
        expired := false } 2 50 1 1 = (10, some 2) ∧
    decide (setzerReaderView
      { source := [], expiry := 100, price := some 1, retries := 7, timestamp := 10,
        expired := false } 2 50 1 1 = ((10 : ℚ), some (1 : ℚ))) = false ∧
    decide (setzerReaderView
      { source := [], expiry := 100, price := some 1, retries := 7, timestamp := 10,
        expired := false } 2 50 1 1 = ((50 : ℚ), some (2 : ℚ))) = false := by
  refine ⟨rfl, by decide, by decide⟩

/-- Claim C10 amended: the background publication of a reading is two
separate plain field writes, the price before the timestamp, in the
subprocess-backed fetch, the websocket ticker handler and the
exchange-REST loop body; a get_price that reads the timestamp at one point
of the writer and the price at a later point observes the old pair, the new
pair, or the one possible torn pair: the new price with the old timestamp.
The mismatched pair is observable, so publication is not atomic; the
opposite mismatch (old price with new timestamp) cannot occur. -/
theorem claim10_amended_torn_read :
    (∀ (st : SetzerState) (p t : ℚ) (k1 k2 : ℕ), k1 ≤ k2 →
      setzerReaderView st p t k1 k2 = (st.timestamp, st.price) ∨
      setzerReaderView st p t k1 k2 = (st.timestamp, some p) ∨
      setzerReaderView st p t k1 k2 = (t, some p)) ∧
    (∀ (st : GdaxState) (p t : ℚ) (k1 k2 : ℕ), k1 ≤ k2 →
      gdaxReaderView st p t k1 k2 = (st.last_timestamp, st.last_price) ∨
      gdaxReaderView st p t k1 k2 = (st.last_timestamp, some p) ∨
      gdaxReaderView st p t k1 k2 = (t, some p)) ∧
    (∀ (st : BiboxState) (p t : ℚ) (k1 k2 : ℕ), k1 ≤ k2 →
      biboxReaderView st p t k1 k2 = (st.last_timestamp, st.last_price) ∨
      biboxReaderView st p t k1 k2 = (st.last_timestamp, some p) ∨
      biboxReaderView st p t k1 k2 = (t, some p)) := by
  refine ⟨?_, ?_, ?_⟩
  · intro st p t k1 k2 hk
    rcases k1 with _ | _ | _ | k1 <;> rcases k2 with _ | _ | _ | k2 <;>
      simp_all [setzerReaderView, setzerFetchMem] <;> omega
  · intro st p t k1 k2 hk
    rcases k1 with _ | _ | k1 <;> rcases k2 with _ | _ | k2 <;>
      simp_all [gdaxReaderView, gdaxTickerMem] <;> omega
  · intro st p t k1 k2 hk
    rcases k1 with _ | _ | k1 <;> rcases k2 with _ | _ | k2 <;>
      simp_all [biboxReaderView, biboxTickerMem] <;> omega

/-- Claim C10 witness: instantiates the read-interleaving characterization
at a concrete state with the timestamp read before the writer starts and
the price read after the writer finishes. -/
theorem claim10_witness :
    ((0 : ℕ) ≤ 3) ∧
    (setzerReaderView
      { source := [], expiry := 100, price := some 1, retries := 7, timestamp := 10,
        expired := false } 2 50 0 3 = ((10 : ℚ), some (1 : ℚ)) ∨
     setzerReaderView
      { source := [], expiry := 100, price := some 1, retries := 7, timestamp := 10,
        expired := false } 2 50 0 3 = ((10 : ℚ), some (2 : ℚ)) ∨
     setzerReaderView
      { source := [], expiry := 100, price := some 1, retries := 7, timestamp := 10,
        expired := false } 2 50 0 3 = ((50 : ℚ), some (2 : ℚ))) :=
  ⟨Nat.zero_le 3,
    claim10_amended_torn_read.1
      { source := [], expiry := 100, price := some 1, retries := 7, timestamp := 10,
        expired := false } 2 50 0 3 (Nat.zero_le 3)⟩
